import Mathlib

/-!
Verification of `prepare_smbless.py` (LowData repository).

The script is a linear build orchestrator: it prints a banner, ensures the
build directory exists, shells out to a compiler, shells out to a signing
tool, and prints a success report.  We embed it as a pure function from a
subprocess environment (mapping each command string to the result the
subordinate process would return) and an initial filesystem (the set of
existing directories) to a trace of observable events, a final filesystem,
and a process exit status.
-/

namespace PrepareSmbless

/-- Configuration constant `HELPER_ID` from the script. -/
def HELPER_ID : String := "com.lowdata.helper"

/-- Configuration constant `APP_ID` from the script (unused by `main`). -/
def APP_ID : String := "com.tonalphoto.tech.LowData"

/-- Configuration constant `TEAM_ID` from the script. -/
def TEAM_ID : String := "85QL287QYW"

/-- Configuration constant `HELPER_SOURCE` from the script. -/
def HELPER_SOURCE : String := "LowDataHelper/main.swift"

/-- Configuration constant `BUILD_DIR` from the script. -/
def BUILD_DIR : String := "build"

/-- The result of a completed subprocess, as `subprocess.run(cmd, shell=True,
capture_output=True, text=True)` reports it: an exit status and the two
captured output streams. -/
structure CmdResult where
  returncode : Int
  stdout : String
  stderr : String
  deriving DecidableEq, Repr

/-- Observable events of a run.  `outLine s` is a `print(s)` call (Python
`print` writes to the process's standard output); `errLine s` is a write of
`s` to the process's standard error; `spawn c` is a subprocess invocation of
the shell command `c`; `mkdirs d` is a directory-creation call; `removeFile p`
is a deletion of path `p`.  The last two output kinds give the embedding the
vocabulary to talk about stderr writes and cleanup even though the script
performs neither. -/
inductive Event where
  | mkdirs (dir : String)
  | spawn (cmd : String)
  | outLine (line : String)
  | errLine (line : String)
  | removeFile (path : String)
  deriving DecidableEq, Repr

/-- An event is an external invocation: a directory creation or a subprocess
spawn. -/
def Event.isExternal : Event → Bool
  | .mkdirs _ => true
  | .spawn _ => true
  | _ => false

/-- An event is a write to the orchestrator's standard error. -/
def Event.isErr : Event → Bool
  | .errLine _ => true
  | _ => false

/-- An event is a file deletion. -/
def Event.isRemove : Event → Bool
  | .removeFile _ => true
  | _ => false

/-- An event is a write to either of the orchestrator's output streams. -/
def Event.isPrint : Event → Bool
  | .outLine _ => true
  | .errLine _ => true
  | _ => false

/-- Model of `os.makedirs(dir, exist_ok=ok)` on a filesystem given as the
list of existing directories: if the directory exists already the call
succeeds exactly when `ok` is set (otherwise `FileExistsError` is raised,
modelled as `none`); if it does not exist it is created. -/
def makedirs (fs : List String) (dir : String) (ok : Bool) : Option (List String) :=
  if dir ∈ fs then
    if ok then some fs else none
  else
    some (dir :: fs)

/-- The shell command built on line 36 of the script:
`swiftc {HELPER_SOURCE} -o {BUILD_DIR}/{HELPER_ID} -O`. -/
def compile_cmd : String :=
  "swiftc " ++ HELPER_SOURCE ++ " -o " ++ BUILD_DIR ++ "/" ++ HELPER_ID ++ " -O"

/-- The shell command built on lines 40 to 41 of the script, the two adjacent
f-strings concatenated. -/
def sign_cmd : String :=
  "codesign --force --sign \"Developer ID Application: Konrad Michels (" ++ TEAM_ID
    ++ ")\" " ++ "--identifier " ++ HELPER_ID ++ " --options runtime "
    ++ BUILD_DIR ++ "/" ++ HELPER_ID

/-- `helper_path` from line 44 of the script: `{BUILD_DIR}/{HELPER_ID}`. -/
def helper_path : String := BUILD_DIR ++ "/" ++ HELPER_ID

/-- The characters Python `str.strip()` removes (ASCII whitespace). -/
def isPyWhitespace (c : Char) : Bool :=
  c = ' ' || c = '\t' || c = '\n' || c = '\x0d' || c = '\x0b' || c = '\x0c'

/-- Model of Python `str.strip()`: drop leading and trailing whitespace
characters. -/
def pyStrip (s : String) : String :=
  ⟨((s.data.dropWhile isPyWhitespace).reverse.dropWhile isPyWhitespace).reverse⟩

/-- `run_command(cmd)` from the script: run the command, and on a non-zero
exit status print `Error: {stderr}` (a Python `print`, hence standard
output) and `exit(1)` (modelled as returning `none`); on success return the
captured standard output stripped of surrounding whitespace. -/
def run_command (env : String → CmdResult) (cmd : String) :
    List Event × Option String :=
  let result := env cmd
  if result.returncode ≠ 0 then
    ([Event.spawn cmd, Event.outLine ("Error: " ++ result.stderr)], none)
  else
    ([Event.spawn cmd], some (pyStrip result.stdout))

/-- The eight `print` calls of the success report, lines 49 to 56. -/
def successReport : List Event :=
  [ Event.outLine "\nHelper tool prepared successfully!",
    Event.outLine ("Helper location: " ++ helper_path),
    Event.outLine "\nNext steps:",
    Event.outLine "1. In Xcode, add a 'Copy Files' build phase",
    Event.outLine "2. Set destination to 'Wrapper' with subpath 'Contents/Library/LaunchServices'",
    Event.outLine ("3. Add " ++ helper_path ++ " to this build phase"),
    Event.outLine "4. Build and run the app",
    Event.outLine "\nThe app will use SMJobBless to install the helper to /Library/PrivilegedHelperTools/" ]

/-- Outcome of one run of the script: the event trace, the final filesystem,
and the process exit status. -/
structure RunOutcome where
  trace : List Event
  fs : List String
  exitCode : Nat
  deriving DecidableEq, Repr

/-- `main()` from the script, followed by the normal interpreter exit.  The
subprocess environment `env` supplies the result each shell command would
produce; `fs` is the set of directories existing at start.  An uncaught
`FileExistsError` from `makedirs` would print a traceback on standard error
and exit with status 1; that branch is unreachable because the script passes
`exist_ok=True`. -/
def main_run (env : String → CmdResult) (fs : List String) : RunOutcome :=
  let t0 : List Event := [Event.outLine "Preparing helper tool for SMJobBless..."]
  match makedirs fs BUILD_DIR true with
  | none =>
      ⟨t0 ++ [Event.mkdirs BUILD_DIR, Event.errLine "FileExistsError"], fs, 1⟩
  | some fs1 =>
    let t1 := t0 ++ [Event.mkdirs BUILD_DIR, Event.outLine "Building helper tool..."]
    match run_command env compile_cmd with
    | (ev, none) => ⟨t1 ++ ev, fs1, 1⟩
    | (ev, some _) =>
      let t2 := t1 ++ ev ++ [Event.outLine "Signing helper..."]
      match run_command env sign_cmd with
      | (ev2, none) => ⟨t2 ++ ev2, fs1, 1⟩
      | (ev2, some _) => ⟨t2 ++ ev2 ++ successReport, fs1, 0⟩

/-- The trace of a run whose compile step fails with stderr text `e`. -/
def traceCompileFail (e : String) : List Event :=
  [ Event.outLine "Preparing helper tool for SMJobBless...",
    Event.mkdirs BUILD_DIR,
    Event.outLine "Building helper tool...",
    Event.spawn compile_cmd,
    Event.outLine ("Error: " ++ e) ]

/-- The trace of a run whose compile step succeeds and whose sign step fails
with stderr text `e`. -/
def traceSignFail (e : String) : List Event :=
  [ Event.outLine "Preparing helper tool for SMJobBless...",
    Event.mkdirs BUILD_DIR,
    Event.outLine "Building helper tool...",
    Event.spawn compile_cmd,
    Event.outLine "Signing helper...",
    Event.spawn sign_cmd,
    Event.outLine ("Error: " ++ e) ]

/-- The trace of a fully successful run. -/
def traceSuccess : List Event :=
  [ Event.outLine "Preparing helper tool for SMJobBless...",
    Event.mkdirs BUILD_DIR,
    Event.outLine "Building helper tool...",
    Event.spawn compile_cmd,
    Event.outLine "Signing helper...",
    Event.spawn sign_cmd ] ++ successReport

lemma makedirs_true_eq (fs : List String) (dir : String) :
    makedirs fs dir true = some (if dir ∈ fs then fs else dir :: fs) := by
  unfold makedirs
  split <;> simp

/-- Closed form of `main_run`: the trace and exit code depend only on the
compile and sign results, the final filesystem only on the initial one. -/
lemma main_run_eq (env : String → CmdResult) (fs : List String) :
    main_run env fs =
      ⟨ if (env compile_cmd).returncode ≠ 0 then
          traceCompileFail (env compile_cmd).stderr
        else if (env sign_cmd).returncode ≠ 0 then
          traceSignFail (env sign_cmd).stderr
        else traceSuccess,
        if BUILD_DIR ∈ fs then fs else BUILD_DIR :: fs,
        if (env compile_cmd).returncode ≠ 0 then 1
        else if (env sign_cmd).returncode ≠ 0 then 1 else 0 ⟩ := by
  unfold main_run run_command
  rw [makedirs_true_eq]
  by_cases h1 : (env compile_cmd).returncode ≠ 0 <;>
    by_cases h2 : (env sign_cmd).returncode ≠ 0 <;>
      simp [h1, h2, traceCompileFail, traceSignFail, traceSuccess]

lemma sign_ne_compile : sign_cmd ≠ compile_cmd := by decide

/-- A string whose first character is not `E` is never an `Error: ` line. -/
lemma ne_error_append (s e : String) (h : s.data.head? ≠ some 'E') :
    s ≠ "Error: " ++ e := by
  intro hs
  apply h
  rw [hs, String.data_append]
  rfl

/-- Subprocess environment in which every command succeeds, with padded
standard output. -/
def envAllOk : String → CmdResult := fun _ => ⟨0, "  ok out  ", ""⟩

/-- Like `envAllOk` but with different captured standard output. -/
def envAllOkOther : String → CmdResult := fun _ => ⟨0, "something else", ""⟩

/-- Environment in which the compile command fails and everything else
succeeds. -/
def envCompileFail : String → CmdResult := fun c =>
  if c = compile_cmd then ⟨1, "", "missing source"⟩ else ⟨0, "", ""⟩

/-- Environment in which the sign command fails and everything else
succeeds. -/
def envSignFail : String → CmdResult := fun c =>
  if c = sign_cmd then ⟨1, "", "unknown identity"⟩ else ⟨0, "", ""⟩

/-- Environment agreeing with `envAllOkOther` on the compile and sign
commands but differing on an unrelated command. -/
def envUnrelatedDiff : String → CmdResult := fun c =>
  if c = "unrelated" then ⟨7, "x", "y"⟩ else ⟨0, "something else", ""⟩

/-- Claim C1: in every execution the external invocations occur in strict
order — directory creation, then the compile subprocess, then the sign
subprocess — and the sign subprocess is never invoked when the compile
subprocess returned a non-zero status. -/
theorem external_calls_ordered (env : String → CmdResult) (fs : List String) :
    (main_run env fs).trace.filter Event.isExternal =
      Event.mkdirs BUILD_DIR :: Event.spawn compile_cmd ::
        (if (env compile_cmd).returncode = 0 then [Event.spawn sign_cmd] else [])
    ∧ ((env compile_cmd).returncode ≠ 0 →
        Event.spawn sign_cmd ∉ (main_run env fs).trace) := by
  rw [main_run_eq]
  by_cases h1 : (env compile_cmd).returncode = 0 <;>
    by_cases h2 : (env sign_cmd).returncode = 0 <;>
      simp [h1, h2, traceCompileFail, traceSignFail, traceSuccess, successReport,
        Event.isExternal, sign_ne_compile]

/-- Claim C1 witness: with a failing compile command, the sign command is
never spawned. -/
theorem external_calls_ordered_witness :
    Event.spawn sign_cmd ∉ (main_run envCompileFail []).trace :=
  (external_calls_ordered envCompileFail []).2 (by decide)

/-- Claim C2: the exit status is 0 exactly when both the compile and the
sign subprocess return status zero and 1 otherwise, and on a failure the run
ends immediately after the diagnostic line — the `Error: ` message is the
last event of the trace. -/
theorem exit_status_spec (env : String → CmdResult) (fs : List String) :
    ((main_run env fs).exitCode =
      if (env compile_cmd).returncode = 0 ∧ (env sign_cmd).returncode = 0
      then 0 else 1)
    ∧ ((env compile_cmd).returncode ≠ 0 →
        (main_run env fs).trace.getLast? =
          some (Event.outLine ("Error: " ++ (env compile_cmd).stderr)))
    ∧ ((env compile_cmd).returncode = 0 → (env sign_cmd).returncode ≠ 0 →
        (main_run env fs).trace.getLast? =
          some (Event.outLine ("Error: " ++ (env sign_cmd).stderr))) := by
  rw [main_run_eq]
  by_cases h1 : (env compile_cmd).returncode = 0 <;>
    by_cases h2 : (env sign_cmd).returncode = 0 <;>
      simp [h1, h2, traceCompileFail, traceSignFail, traceSuccess, successReport]

/-- Claim C2 witness: a failing compile command yields exit status 1 with the
diagnostic as the final event. -/
theorem exit_status_spec_witness :
    (main_run envCompileFail []).exitCode = 1
    ∧ (main_run envCompileFail []).trace.getLast? =
        some (Event.outLine "Error: missing source") := by
  have h := exit_status_spec envCompileFail []
  refine ⟨?_, ?_⟩
  · rw [h.1]; decide
  · rw [h.2.1 (by decide)]; decide

/-- Claim C5: the compile step spawns exactly the command
`swiftc LowDataHelper/main.swift -o build/com.lowdata.helper -O` — the
fixed source path, the output directory joined with the helper identifier,
and the optimization flag — in every run. -/
theorem compile_invocation_shape (env : String → CmdResult) (fs : List String) :
    compile_cmd = "swiftc " ++ HELPER_SOURCE ++ " -o "
        ++ (BUILD_DIR ++ "/" ++ HELPER_ID) ++ " -O"
    ∧ compile_cmd = "swiftc LowDataHelper/main.swift -o build/com.lowdata.helper -O"
    ∧ Event.spawn compile_cmd ∈ (main_run env fs).trace := by
  refine ⟨by decide, by decide, ?_⟩
  rw [main_run_eq]
  by_cases h1 : (env compile_cmd).returncode = 0 <;>
    by_cases h2 : (env sign_cmd).returncode = 0 <;>
      simp [h1, h2, traceCompileFail, traceSignFail, traceSuccess]

/-- Claim C8: the directory-creation step is idempotent — `makedirs` with
`exist_ok` set never fails, and a second run of the orchestrator from the
filesystem the first run left behind produces an identical outcome. -/
theorem output_dir_idempotent (env : String → CmdResult) (fs : List String) :
    (makedirs fs BUILD_DIR true).isSome
    ∧ makedirs ((main_run env fs).fs) BUILD_DIR true = some ((main_run env fs).fs)
    ∧ main_run env ((main_run env fs).fs) = main_run env fs := by
  have hmem : BUILD_DIR ∈ (main_run env fs).fs := by
    rw [main_run_eq]
    by_cases hm : BUILD_DIR ∈ fs <;> simp [hm]
  refine ⟨?_, ?_, ?_⟩
  · rw [makedirs_true_eq]; rfl
  · rw [makedirs_true_eq, if_pos hmem]
  · rw [main_run_eq env ((main_run env fs).fs), if_pos hmem]
    rw [main_run_eq env fs]

/-- Claim C9: the orchestrator is deterministic given the subprocess
results — two runs whose environments agree on the compile and sign
commands produce identical traces (hence identical printed output) and
identical exit status, whatever the initial filesystems. -/
theorem behavior_determined_by_subprocess_results
    (env1 env2 : String → CmdResult) (fs1 fs2 : List String)
    (hc : env1 compile_cmd = env2 compile_cmd)
    (hs : env1 sign_cmd = env2 sign_cmd) :
    (main_run env1 fs1).trace = (main_run env2 fs2).trace
    ∧ (main_run env1 fs1).exitCode = (main_run env2 fs2).exitCode := by
  rw [main_run_eq env1 fs1, main_run_eq env2 fs2, hc, hs]
  exact ⟨rfl, rfl⟩

/-- Claim C9 witness: two environments that agree on the compile and sign
commands but differ on an unrelated command, run from different
filesystems, give the same trace and exit status. -/
theorem behavior_determined_witness :
    (main_run envUnrelatedDiff []).trace = (main_run envAllOkOther ["build"]).trace
    ∧ (main_run envUnrelatedDiff []).exitCode
        = (main_run envAllOkOther ["build"]).exitCode :=
  behavior_determined_by_subprocess_results envUnrelatedDiff envAllOkOther
    [] ["build"] (by decide) (by decide)

/-- Claim C3 counterexample: when the sign subprocess fails, its captured
stderr text is printed on the orchestrator's standard output (Python
`print`), and nothing at all is written to the orchestrator's standard
error — contradicting the claim that the relay happens on standard error
and not standard output. -/
theorem error_relay_stream_cex :
    Event.outLine "Error: unknown identity" ∈ (main_run envSignFail []).trace
    ∧ (main_run envSignFail []).trace.filter Event.isErr = [] := by decide

/-- Claim C3 (amended): progress messages, the final instructions, and the
failing subordinate tool's captured stderr text (prefixed `Error: `) are all
written to standard output; the orchestrator never writes to its own
standard error stream. -/
theorem diagnostics_on_stdout (env : String → CmdResult) (fs : List String) :
    ((main_run env fs).trace.filter Event.isErr = [])
    ∧ ((env compile_cmd).returncode ≠ 0 →
        Event.outLine ("Error: " ++ (env compile_cmd).stderr)
          ∈ (main_run env fs).trace)
    ∧ ((env compile_cmd).returncode = 0 → (env sign_cmd).returncode ≠ 0 →
        Event.outLine ("Error: " ++ (env sign_cmd).stderr)
          ∈ (main_run env fs).trace) := by
  rw [main_run_eq]
  by_cases h1 : (env compile_cmd).returncode = 0 <;>
    by_cases h2 : (env sign_cmd).returncode = 0 <;>
      simp [h1, h2, traceCompileFail, traceSignFail, traceSuccess, successReport,
        Event.isErr]

/-- Claim C3 (amended) witness: with a failing compile command the
diagnostic line appears on standard output and standard error stays
empty. -/
theorem diagnostics_on_stdout_witness :
    Event.outLine ("Error: " ++ (envCompileFail compile_cmd).stderr)
        ∈ (main_run envCompileFail []).trace
    ∧ (main_run envCompileFail []).trace.filter Event.isErr = [] :=
  ⟨(diagnostics_on_stdout envCompileFail []).2.1 (by decide),
    (diagnostics_on_stdout envCompileFail []).1⟩

/-- Claim C4: when the compile subprocess succeeds and the sign subprocess
fails, the run exits with status 1, neither the success banner nor the
helper-location line of the success report is printed, and no file deletion
(cleanup of the compiled binary) is performed. -/
theorem sign_failure_aborts (env : String → CmdResult) (fs : List String)
    (h1 : (env compile_cmd).returncode = 0)
    (h2 : (env sign_cmd).returncode ≠ 0) :
    (main_run env fs).exitCode = 1
    ∧ Event.outLine "\nHelper tool prepared successfully!" ∉ (main_run env fs).trace
    ∧ Event.outLine ("Helper location: " ++ helper_path) ∉ (main_run env fs).trace
    ∧ (main_run env fs).trace.filter Event.isRemove = [] := by
  rw [main_run_eq]
  simp [h1, h2, traceSignFail, Event.isRemove, helper_path, BUILD_DIR, HELPER_ID]
  constructor
  · exact ne_error_append "\nHelper tool prepared successfully!" _ (by decide)
  · exact ne_error_append "Helper location: build/com.lowdata.helper" _ (by decide)

/-- Claim C4 witness: with a failing sign command the run exits with status
1, prints no success banner, and deletes nothing. -/
theorem sign_failure_aborts_witness :
    (main_run envSignFail []).exitCode = 1
    ∧ Event.outLine "\nHelper tool prepared successfully!"
        ∉ (main_run envSignFail []).trace
    ∧ (main_run envSignFail []).trace.filter Event.isRemove = [] := by
  have h := sign_failure_aborts envSignFail [] (by decide) (by decide)
  exact ⟨h.1, h.2.1, h.2.2.2⟩

/-- Claim C6: the sign step spawns exactly the command
`codesign --force --sign "Developer ID Application: Konrad Michels
(85QL287QYW)" --identifier com.lowdata.helper --options runtime
build/com.lowdata.helper` — the fixed identity with the team identifier,
the fixed helper identifier, and the path produced by the compile step —
whenever the compile subprocess succeeded. -/
theorem sign_invocation_shape (env : String → CmdResult) (fs : List String) :
    sign_cmd = "codesign --force --sign \"Developer ID Application: Konrad Michels (85QL287QYW)\" --identifier com.lowdata.helper --options runtime build/com.lowdata.helper"
    ∧ sign_cmd = "codesign --force --sign \"Developer ID Application: Konrad Michels ("
        ++ TEAM_ID ++ ")\" --identifier " ++ HELPER_ID ++ " --options runtime "
        ++ helper_path
    ∧ ((env compile_cmd).returncode = 0 →
        Event.spawn sign_cmd ∈ (main_run env fs).trace) := by
  refine ⟨by decide, by decide, fun h1 => ?_⟩
  rw [main_run_eq]
  by_cases h2 : (env sign_cmd).returncode = 0 <;>
    simp [h1, h2, traceSignFail, traceSuccess]

/-- Claim C6 witness: when every command succeeds, the sign command is
spawned. -/
theorem sign_invocation_shape_witness :
    Event.spawn sign_cmd ∈ (main_run envAllOk []).trace :=
  (sign_invocation_shape envAllOk []).2.2 (by decide)

/-- Claim C7: on full success the run exits with status 0 and the printed
report contains the literal artifact path `build/com.lowdata.helper`, both
in the helper-location line and in the build-phase instruction. -/
theorem success_report_path (env : String → CmdResult) (fs : List String)
    (h1 : (env compile_cmd).returncode = 0)
    (h2 : (env sign_cmd).returncode = 0) :
    (main_run env fs).exitCode = 0
    ∧ helper_path = "build/com.lowdata.helper"
    ∧ Event.outLine "Helper location: build/com.lowdata.helper"
        ∈ (main_run env fs).trace
    ∧ Event.outLine "3. Add build/com.lowdata.helper to this build phase"
        ∈ (main_run env fs).trace := by
  rw [main_run_eq]
  refine ⟨by simp [h1, h2], by decide, ?_, ?_⟩ <;>
    simp [h1, h2, traceSuccess, successReport] <;> decide

/-- Claim C7 witness: with both commands succeeding the run exits with
status 0 and prints the artifact path. -/
theorem success_report_path_witness :
    (main_run envAllOk []).exitCode = 0
    ∧ Event.outLine "Helper location: build/com.lowdata.helper"
        ∈ (main_run envAllOk []).trace := by
  have h := success_report_path envAllOk [] (by decide) (by decide)
  exact ⟨h.1, h.2.2.1⟩

/-- Claim C10: on a zero exit status `run_command` returns the captured
standard output stripped of leading and trailing whitespace; on failure the
only line it prints is the captured stderr prefixed `Error: `; and the
subordinate tools' standard output never influences what the orchestrator
prints — two environments agreeing on exit statuses and stderr texts but
with arbitrary stdouts give identical traces. -/
theorem run_command_output_policy (env env' : String → CmdResult)
    (cmd : String) (fs fs' : List String) :
    ((env cmd).returncode = 0 →
      (run_command env cmd).2 = some (pyStrip (env cmd).stdout))
    ∧ ((env cmd).returncode ≠ 0 →
      (run_command env cmd).1.filter Event.isPrint =
        [Event.outLine ("Error: " ++ (env cmd).stderr)])
    ∧ ((env compile_cmd).returncode = (env' compile_cmd).returncode →
       (env compile_cmd).stderr = (env' compile_cmd).stderr →
       (env sign_cmd).returncode = (env' sign_cmd).returncode →
       (env sign_cmd).stderr = (env' sign_cmd).stderr →
       (main_run env fs).trace = (main_run env' fs').trace) := by
  refine ⟨fun h => by simp [run_command, h],
    fun h => by simp [run_command, h, Event.isPrint], ?_⟩
  intro hrc hse hrs hss
  rw [main_run_eq env fs, main_run_eq env' fs', hrc, hse, hrs, hss]

/-- Claim C10 witness: a successful command's stdout comes back stripped,
and changing every command's stdout leaves the trace unchanged. -/
theorem run_command_output_policy_witness :
    (run_command envAllOk compile_cmd).2 = some "ok out"
    ∧ (main_run envAllOk []).trace = (main_run envAllOkOther []).trace := by
  have h := run_command_output_policy envAllOk envAllOkOther compile_cmd [] []
  refine ⟨?_, h.2.2 rfl rfl rfl rfl⟩
  rw [h.1 (by decide)]
  decide

end PrepareSmbless
